import Mathlib

/-!
Verification of the business-idea generation pipeline (sherki99/idea_generator).

Shallow embedding of the repository:
  - graph/state.py        : the pydantic data model (schemas, pipeline state)
  - agents/*.py           : the five agent node functions
  - graph/workflow.py     : the LangGraph chain wiring the agents
  - tools/*.py            : external signal providers, modelled as oracles

Modelling conventions:
  - Network calls (signal providers, the Azure LLM structured-output calls)
    are oracles: fields of an `Oracles` record, each returning
    `Except String result` where the error carries the Python exception text.
  - Pydantic field constraints (`ge` / `le` bounds) are embedded as boolean
    validity predicates; a structured-output call yields a value only when the
    oracle succeeds and the value passes validation, mirroring pydantic
    raising a ValidationError (which the agents catch like any other failure).
  - Python floats used for the bounded 0..10 scores are modelled as rationals.
  - An unexpected exception inside an agent body (outside the per-call guards)
    is modelled by a per-agent `Option String` oracle carrying the exception
    text; when set, the agent takes its outer `except` branch.  This is
    observationally faithful: the agents never mutate the incoming state, so
    the only effect of the position of the raise is the returned update.
  - Timestamps (`created_at`, `processing_start_time`) are never read by any
    agent or by the workflow and are omitted.
-/

namespace IdeaGenerator

/-- Enum TargetMarket from graph/state.py. -/
inductive TargetMarket where
  | B2B
  | B2C
  | B2B2C
deriving Repr, DecidableEq

/-- TargetAudience model from graph/state.py. -/
structure TargetAudience where
  demographic : String
  age_range : Option String := none
  income_level : Option String := none
  tech_literacy : String
  pain_points : List String := []
  buying_behavior : Option String := none
deriving Repr, DecidableEq

/-- UserInput model from graph/state.py (created_at timestamp omitted). -/
structure UserInput where
  country_region : String
  industry_market : String
  target_market_type : TargetMarket
  target_audience : Option TargetAudience := none
deriving Repr, DecidableEq

/-- CompetitorInfo model from graph/state.py. -/
structure CompetitorInfo where
  name : String
  description : String
  pricing : Option String := none
  market_position : String
  strengths : List String := []
  weaknesses : List String := []
  funding_stage : Option String := none
  url : Option String := none
deriving Repr, DecidableEq

/-- MarketTrend model from graph/state.py; relevance_score carries the
pydantic bound ge=0, le=10, checked by `validMarketTrend`. -/
structure MarketTrend where
  trend_name : String
  description : String
  growth_rate : Option ℚ := none
  market_size : Option String := none
  projected_size : Option String := none
  key_drivers : List String := []
  time_horizon : String
  relevance_score : ℚ
deriving Repr, DecidableEq

/-- MarketResearchOutput model from graph/state.py. -/
structure MarketResearchOutput where
  market_trends : List MarketTrend := []
  competitors : List CompetitorInfo := []
  market_saturation_level : String
  growth_opportunities : List String := []
  market_size_estimate : Option String := none
  seasonal_patterns : Option String := none
  geographic_insights : Option String := none
  research_sources : List String := []
  confidence_score : ℚ
deriving Repr, DecidableEq

/-- PainPoint model from graph/state.py; frequency and urgency carry the
pydantic bounds ge=1, le=10 and automation_potential ge=0, le=10. -/
structure PainPoint where
  problem_description : String
  frequency_score : ℤ
  urgency_score : ℤ
  impact_level : String
  affected_audience : String
  current_solutions : List String := []
  source_mentions : ℤ
  source_platforms : List String := []
  example_quotes : List String := []
  automation_potential : ℚ
deriving Repr, DecidableEq

/-- PainPointDiscoveryOutput model from graph/state.py. -/
structure PainPointDiscoveryOutput where
  pain_points : List PainPoint := []
  top_pain_categories : List String := []
  sentiment_analysis : Option String := none
  data_sources : List String := []
  total_mentions_analyzed : ℤ
  analysis_date_range : String
  confidence_score : ℚ
deriving Repr, DecidableEq

/-- PersonaDemographics model from graph/state.py. -/
structure PersonaDemographics where
  age_range : String
  gender_distribution : Option String := none
  income_range : String
  education_level : String
  job_titles : List String := []
  company_size : Option String := none
  location_type : String
deriving Repr, DecidableEq

/-- PersonaBehavior model from graph/state.py. -/
structure PersonaBehavior where
  preferred_communication_channels : List String := []
  decision_making_process : String
  budget_authority : String
  technology_adoption : String
  research_habits : List String := []
  objections_concerns : List String := []
deriving Repr, DecidableEq

/-- UserPersona model from graph/state.py. -/
structure UserPersona where
  persona_name : String
  persona_description : String
  demographics : PersonaDemographics
  behavior : PersonaBehavior
  pain_points : List String := []
  goals_motivations : List String := []
  preferred_features : List String := []
  accessibility_needs : Option (List String) := some []
deriving Repr, DecidableEq

/-- Embeds the field market_segmentation : Union[Dict[str, Any], List[Dict[str, Any]]]
of UserPersonaAnalysisOutput.  The Any payloads are modelled opaquely as
strings; what matters to the code is only the dict-versus-list shape, which the
persona agent normalises after a successful inference call. -/
inductive MarketSegmentation where
  | dictVal (entries : List (String × String))
  | listVal (items : List String)
deriving Repr, DecidableEq

/-- UserPersonaAnalysisOutput model from graph/state.py
(persona_prioritization : Dict[str, str] modelled as an association list). -/
structure UserPersonaAnalysisOutput where
  primary_personas : List UserPersona := []
  secondary_personas : List UserPersona := []
  persona_prioritization : List (String × String) := []
  cross_persona_insights : List String := []
  market_segmentation : MarketSegmentation := .dictVal []
  research_methodology : List String := []
  sample_size : Option ℤ := none
  confidence_score : ℚ
deriving Repr, DecidableEq

/-- NicheOpportunity model from graph/state.py. -/
structure NicheOpportunity where
  niche_name : String
  description : String
  target_persona : String
  demand_level : String
  trend_score : ℚ
  competition_level : String
  pain_points_addressed : List String := []
  supporting_evidence : Option (List String) := some []
  estimated_market_size : Option String := none
deriving Repr, DecidableEq

/-- NicheOpportunityScannerOutput model from graph/state.py. -/
structure NicheOpportunityScannerOutput where
  niches : List NicheOpportunity := []
  prioritization : List (String × String) := []
  cross_niche_insights : Option (List String) := some []
  confidence_score : ℚ
  research_sources : List String := []
deriving Repr, DecidableEq

/-- BusinessIdea model from graph/state.py. -/
structure BusinessIdea where
  idea_name : String
  niche : String
  description : String
  workflow_design : String
  unique_value_prop : String
  monetization_strategy : String
  target_persona : String
  feasibility_score : ℚ
  supporting_evidence : List String := []
deriving Repr, DecidableEq

/-- BusinessModelGeneratorOutput model from graph/state.py. -/
structure BusinessModelGeneratorOutput where
  ideas : List BusinessIdea := []
  recommended_idea : Option String := none
  confidence_score : ℚ
deriving Repr, DecidableEq

/-- Phase1ResearchOutput model from graph/state.py: the research record with
one optional slot per research dimension plus summary fields. -/
structure Phase1ResearchOutput where
  market_research : Option MarketResearchOutput := none
  pain_point_discovery : Option PainPointDiscoveryOutput := none
  user_persona_analysis : Option UserPersonaAnalysisOutput := none
  niche_opportunity : Option NicheOpportunityScannerOutput := none
  business_model_generator : Option BusinessModelGeneratorOutput := none
  research_summary : Option String := none
  key_opportunities : Option (List String) := none
  research_quality_score : Option ℚ := none
  next_steps_recommendation : Option String := none
deriving Repr, DecidableEq

/-- Research record with every slot absent: the value produced by spreading
an absent record (the Python idiom state.research_output.model_dump() if
state.research_output else the empty dict). -/
def emptyResearch : Phase1ResearchOutput := {}

/-- BusinessIdeaGenerationState model from graph/state.py (the LangGraph
state schema; processing_start_time omitted as it is never read). -/
structure BusinessIdeaGenerationState where
  user_input : UserInput
  phase1_complete : Bool := false
  research_output : Option Phase1ResearchOutput := none
  current_step : String := "initialization"
  errors : List String := []
  tools_used : List String := []
  step_timestamps : Option String := none
  debug_mode : Bool := false
  save_intermediate_results : Bool := true
deriving Repr, DecidableEq

/-- Partial state update returned by an agent node (a Python dict).  A `none`
field means the key is absent from the returned dict.  The two extra fields
embed keys the agents return that are NOT fields of the state schema
(pain_point_discovery in the pain-point agent, business_model_generator in the
business-model generator fallback); LangGraph state channels exist only for
schema fields, so these never reach the folded state. -/
structure StateUpdate where
  research_output : Option Phase1ResearchOutput := none
  phase1_complete : Option Bool := none
  current_step : Option String := none
  errors : Option (List String) := none
  tools_used : Option (List String) := none
  extra_pain_point_discovery : Option PainPointDiscoveryOutput := none
  extra_business_model_generator : Option BusinessModelGeneratorOutput := none
deriving Repr, DecidableEq

/-- LangGraph fold of a node update into the state: each key present in the
returned dict replaces the corresponding state field, absent keys leave the
field unchanged; keys outside the schema are not state channels. -/
def applyUpdate (s : BusinessIdeaGenerationState) (u : StateUpdate) :
    BusinessIdeaGenerationState :=
  { s with
    research_output := match u.research_output with
      | some r => some r
      | none => s.research_output,
    phase1_complete := u.phase1_complete.getD s.phase1_complete,
    current_step := u.current_step.getD s.current_step,
    errors := u.errors.getD s.errors,
    tools_used := u.tools_used.getD s.tools_used }

/-- External collaborators of the agents: the signal-provider tools, the
structured-output LLM calls, the niche-scanner file save, and the per-agent
unexpected-exception triggers (modelling a raise outside the guarded calls,
which the outer except of each agent catches).  Errors carry the str(e) text. -/
structure Oracles where
  getTrend : String → Except String String
  searchOnly : String → Except String String
  searchTweets : String → Except String String
  risingTrends : String → Except String String
  llmMarketResearch : Except String MarketResearchOutput
  llmMarketPain : Except String PainPointDiscoveryOutput
  llmPain : Except String PainPointDiscoveryOutput
  llmPersona : Except String UserPersonaAnalysisOutput
  llmNiche : Except String NicheOpportunityScannerOutput
  llmBusiness : Except String BusinessModelGeneratorOutput
  llmValidationOk : Bool
  nicheSave : Except String Unit
  marketFatal : Option String := none
  painFatal : Option String := none
  personaFatal : Option String := none
  nicheFatal : Option String := none
  businessFatal : Option String := none

/-- Bound check for a pydantic field declared ge=0, le=10. -/
def scoreOkQ (x : ℚ) : Bool :=
  decide (0 ≤ x) && decide (x ≤ 10)

/-- Bound check for a pydantic int field declared ge=1, le=10. -/
def scoreOkZ (x : ℤ) : Bool :=
  decide (1 ≤ x) && decide (x ≤ 10)

/-- Pydantic validation of MarketTrend (relevance_score in 0..10). -/
def validMarketTrend (t : MarketTrend) : Bool :=
  scoreOkQ t.relevance_score

/-- Pydantic validation of MarketResearchOutput. -/
def validMarketResearchOutput (m : MarketResearchOutput) : Bool :=
  m.market_trends.all validMarketTrend && scoreOkQ m.confidence_score

/-- Pydantic validation of PainPoint (frequency and urgency in 1..10,
automation_potential in 0..10). -/
def validPainPoint (p : PainPoint) : Bool :=
  scoreOkZ p.frequency_score && scoreOkZ p.urgency_score &&
    scoreOkQ p.automation_potential

/-- Pydantic validation of PainPointDiscoveryOutput. -/
def validPainOutput (p : PainPointDiscoveryOutput) : Bool :=
  p.pain_points.all validPainPoint && scoreOkQ p.confidence_score

/-- Pydantic validation of UserPersonaAnalysisOutput (confidence in 0..10;
no numeric bound lives on UserPersona itself). -/
def validPersonaOutput (p : UserPersonaAnalysisOutput) : Bool :=
  scoreOkQ p.confidence_score

/-- Pydantic validation of NicheOpportunityScannerOutput. -/
def validNicheOutput (n : NicheOpportunityScannerOutput) : Bool :=
  n.niches.all (fun x => scoreOkQ x.trend_score) && scoreOkQ n.confidence_score

/-- Pydantic validation of BusinessModelGeneratorOutput. -/
def validBusinessOutput (b : BusinessModelGeneratorOutput) : Bool :=
  b.ideas.all (fun x => scoreOkQ x.feasibility_score) && scoreOkQ b.confidence_score

/-- Embeds llm.with_structured_output(schema).invoke(prompt): the call either
fails outright (transport error) or returns a value that passed pydantic
validation; an out-of-bounds value raises a ValidationError, which the callers
treat like any other inference failure. -/
def llmStructured {α : Type} (r : Except String α) (valid : α → Bool) :
    Except String α :=
  match r with
  | .error e => .error e
  | .ok v => if valid v then .ok v else .error "ValidationError: value out of bounds"

/-- One gathered entry appended by the per-query loops of the agents:
a dict with keys query and results. -/
structure SignalEntry where
  query : String
  results : String
deriving Repr, DecidableEq

/-- Embeds the per-query gather loops (for query in queries: try: append
dict(query, results) except: continue): a failing provider call is skipped and
the loop continues with the remaining queries. -/
def gatherSignals (call : String → Except String String) :
    List String → List SignalEntry
  | [] => []
  | q :: qs =>
    match call q with
    | .ok r => { query := q, results := r } :: gatherSignals call qs
    | .error _ => gatherSignals call qs

/-- Trend queries of the market research agent. -/
def marketTrendQueries (industry : String) : List String :=
  [industry ++ " automation AI",
   industry ++ " machine learning",
   industry ++ " software tools",
   industry ++ " productivity",
   industry ++ " workflow automation"]

/-- Reddit queries of the market research agent (and, identically, of the
pain-point discovery agent). -/
def marketRedditQueries (industry : String) : List String :=
  [industry ++ " problems",
   industry ++ " automation challenges",
   industry ++ " manual work issues"]

/-- Helper for Python enumerate: maps a function of the index over a list,
starting from a given index. -/
def enumMap {α β : Type} (f : ℕ → α → β) : ℕ → List α → List β
  | _, [] => []
  | i, a :: as => f i a :: enumMap f (i + 1) as

/-- One market trend built by parse_api_data from the i-th gathered trend
entry (the query key is always present in the entries the agent builds). -/
def mkFallbackTrend (industry : String) (i : ℕ) (e : SignalEntry) : MarketTrend :=
  { trend_name := industry ++ " Trend " ++ toString (i + 1),
    description := "Rising interest in " ++ e.query ++ " based on search data",
    relevance_score := 8 - (i : ℚ),
    time_horizon := "medium-term",
    key_drivers := ["Digital transformation", "Efficiency needs", "Cost reduction"] }

/-- One pain point built by parse_api_data from the i-th gathered reddit
entry. -/
def mkFallbackPain (industry : String) (i : ℕ) (e : SignalEntry) : PainPoint :=
  { problem_description := "Common issue found: " ++ e.query,
    frequency_score := 7 - (i : ℤ),
    urgency_score := 6,
    impact_level := if i < 2 then "medium" else "low",
    affected_audience := industry ++ " professionals",
    source_mentions := 10 - (i : ℤ) * 2,
    source_platforms := ["reddit"],
    automation_potential := 8 - (i : ℚ),
    current_solutions := ["Manual processes", "Basic tools"] }

/-- Embeds parse_api_data of agents/market_research_agent.py: builds the
fallback market trends (top 3 trend entries) and fallback pain points (top 5
reddit entries); empty inputs yield empty lists. -/
def parse_api_data (trend_data reddit_insights : List SignalEntry)
    (industry : String) : List MarketTrend × List PainPoint :=
  let market_trends :=
    if trend_data.isEmpty then []
    else enumMap (mkFallbackTrend industry) 0 (trend_data.take 3)
  let pain_points :=
    if reddit_insights.isEmpty then []
    else enumMap (mkFallbackPain industry) 0 (reddit_insights.take 5)
  (market_trends, pain_points)

/-- Fallback MarketResearchOutput constructed in the market research agent
when the structured-output call for market research fails. -/
def marketFallbackOutput (industry : String) (fallback_trends : List MarketTrend) :
    MarketResearchOutput :=
  { market_trends := fallback_trends,
    competitors := [{
      name := industry ++ " Leader",
      description := "Major player in " ++ industry ++ " automation",
      market_position := "leader",
      strengths := ["Established user base", "Feature rich"],
      weaknesses := ["High cost", "Complex setup"] }],
    market_saturation_level := "medium",
    growth_opportunities :=
      ["AI-powered automation in " ++ industry,
       "SMB-focused " ++ industry ++ " tools",
       "Integration solutions for " ++ industry],
    research_sources := ["google_trends", "reddit"],
    confidence_score := 6 }

/-- Fallback PainPointDiscoveryOutput constructed in the market research agent
when the structured-output call for pain points fails. -/
def marketFallbackPainOutput (industry : String)
    (fallback_pain_points : List PainPoint) (redditCount : ℕ) :
    PainPointDiscoveryOutput :=
  { pain_points := fallback_pain_points,
    top_pain_categories :=
      [industry ++ " manual processes",
       industry ++ " data entry",
       industry ++ " reporting tasks"],
    data_sources := ["reddit"],
    total_mentions_analyzed := (redditCount : ℤ) * 3,
    analysis_date_range := "past month",
    confidence_score := 6 }

/-- Text of the research_summary f-string of the market research agent
(surrounding whitespace abstracted away). -/
def researchSummaryText (industry : String) (nTrends nPains : ℕ)
    (saturation : String) : String :=
  "Market research completed for " ++ industry ++ " industry: - Found " ++
    toString nTrends ++ " market trends - Identified " ++ toString nPains ++
    " pain points - Market saturation: " ++ saturation ++
    " - Key opportunities in automation and AI integration"

/-- Update returned by the outer except handler shared (syntactically) by the
market research, pain point, persona and niche scanner agents: only the
current_step and errors keys. -/
def failUpdate (label message : String) (s : BusinessIdeaGenerationState) :
    StateUpdate :=
  { current_step := some label,
    errors := some (s.errors ++ [message]) }

/-- Embeds market_research_agent of agents/market_research_agent.py. -/
def marketResearchAgent (o : Oracles) (s : BusinessIdeaGenerationState) :
    StateUpdate :=
  match o.marketFatal with
  | some m => failUpdate "market_research_failed" ("Market research failed: " ++ m) s
  | none =>
    let industry := s.user_input.industry_market
    let trend_data := gatherSignals o.getTrend (marketTrendQueries industry)
    let reddit_insights := gatherSignals o.searchOnly (marketRedditQueries industry)
    let fallback := parse_api_data trend_data reddit_insights industry
    let structured_market_research :=
      match llmStructured o.llmMarketResearch validMarketResearchOutput with
      | .ok v => v
      | .error _ => marketFallbackOutput industry fallback.1
    let structured_pain_points :=
      match llmStructured o.llmMarketPain validPainOutput with
      | .ok v => v
      | .error _ => marketFallbackPainOutput industry fallback.2 reddit_insights.length
    let research_output : Phase1ResearchOutput :=
      { market_research := some structured_market_research,
        pain_point_discovery := some structured_pain_points,
        research_summary := some (researchSummaryText industry
          structured_market_research.market_trends.length
          structured_pain_points.pain_points.length
          structured_market_research.market_saturation_level),
        research_quality_score := some (max structured_market_research.confidence_score
          structured_pain_points.confidence_score),
        next_steps_recommendation :=
          some "Proceed to user persona analysis and business idea generation." }
    { research_output := some research_output,
      current_step := some "market_research_complete",
      tools_used := some (s.tools_used ++ ["google_trends", "reddit_search", "azure_llm"]),
      phase1_complete := some true }

/-- Twitter queries of the pain-point discovery agent. -/
def painTwitterQueries (industry : String) : List String :=
  [industry ++ " problems",
   industry ++ " issues",
   industry ++ " challenges"]

/-- Fallback PainPointDiscoveryOutput constructed in the pain-point discovery
agent when its structured-output call fails: exactly one canonical pain point. -/
def painFallbackOutput (industry : String) (redditCount : ℕ) :
    PainPointDiscoveryOutput :=
  { pain_points := [{
      problem_description := "Manual processes in " ++ industry,
      frequency_score := 8,
      urgency_score := 7,
      impact_level := "high",
      affected_audience := industry ++ " professionals",
      source_mentions := 10,
      source_platforms := ["reddit"],
      automation_potential := 8,
      current_solutions := ["Manual processes", "Basic tools"] }],
    top_pain_categories :=
      [industry ++ " manual processes",
       industry ++ " data entry",
       industry ++ " reporting tasks"],
    data_sources := ["reddit"],
    total_mentions_analyzed := (redditCount : ℤ) * 3,
    analysis_date_range := "past month",
    confidence_score := 6 }

/-- Spread-merge idiom of the pain-point discovery agent: the dict built from
the dump of the prior record (empty dict when the record is absent) with the
pain_point_discovery key replaced. -/
def mergePainSlot (r : Option Phase1ResearchOutput)
    (v : PainPointDiscoveryOutput) : Phase1ResearchOutput :=
  { r.getD emptyResearch with pain_point_discovery := some v }

/-- Spread-merge idiom of the persona analysis agent. -/
def mergePersonaSlot (r : Option Phase1ResearchOutput)
    (v : UserPersonaAnalysisOutput) : Phase1ResearchOutput :=
  { r.getD emptyResearch with user_persona_analysis := some v }

/-- Spread-merge idiom of the niche opportunity scanner agent. -/
def mergeNicheSlot (r : Option Phase1ResearchOutput)
    (v : NicheOpportunityScannerOutput) : Phase1ResearchOutput :=
  { r.getD emptyResearch with niche_opportunity := some v }

/-- Spread-merge idiom of the business model generator agent. -/
def mergeBusinessSlot (r : Option Phase1ResearchOutput)
    (v : BusinessModelGeneratorOutput) : Phase1ResearchOutput :=
  { r.getD emptyResearch with business_model_generator := some v }

/-- Embeds pain_point_discovery_agent of agents/pain_point_discovery_agent.py. -/
def painPointDiscoveryAgent (o : Oracles) (s : BusinessIdeaGenerationState) :
    StateUpdate :=
  match o.painFatal with
  | some m =>
    failUpdate "pain_point_discovery_failed" ("Pain point discovery failed: " ++ m) s
  | none =>
    let industry := s.user_input.industry_market
    let reddit_insights := gatherSignals o.searchOnly (marketRedditQueries industry)
    let _twitter_insights := gatherSignals o.searchTweets (painTwitterQueries industry)
    let structured_pain_points :=
      match llmStructured o.llmPain validPainOutput with
      | .ok v => v
      | .error _ => painFallbackOutput industry reddit_insights.length
    { research_output := some (mergePainSlot s.research_output structured_pain_points),
      extra_pain_point_discovery := some structured_pain_points,
      current_step := some "pain_point_discovery_complete",
      tools_used := some (s.tools_used ++ ["reddit_search", "azure_llm"]) }

/-- Reddit queries of the persona analysis agent. -/
def personaQueries (industry : String) : List String :=
  [industry ++ " customer demographics",
   industry ++ " buyer behavior",
   industry ++ " decision makers",
   "who uses " ++ industry ++ " tools",
   industry ++ " budget authority"]

/-- Post-processing of a successful persona inference: a list-shaped
market_segmentation is rewritten into a dict keyed segment_0, segment_1, ... -/
def fixSegmentation (m : MarketSegmentation) : MarketSegmentation :=
  match m with
  | .listVal items =>
    .dictVal (enumMap (fun i v => ("segment_" ++ toString i, v)) 0 items)
  | d => d

/-- Post-processing of a successful persona inference: a falsy sample_size
(absent or zero) is replaced by three per gathered insight. -/
def fixSampleSize (v : Option ℤ) (insightCount : ℕ) : Option ℤ :=
  match v with
  | none => some ((insightCount : ℤ) * 3)
  | some 0 => some ((insightCount : ℤ) * 3)
  | some n => some n

/-- Fallback UserPersonaAnalysisOutput constructed in the persona analysis
agent when its structured-output call fails (the price_sensitivity and
persona_size keyword arguments of the source are silently discarded by
pydantic, as they are not fields of UserPersona). -/
def personaFallbackOutput (industry : String) (insightCount : ℕ) :
    UserPersonaAnalysisOutput :=
  { primary_personas := [{
      persona_name := industry ++ " Professional",
      persona_description := "Primary user of " ++ industry ++ " tools and solutions",
      demographics := {
        age_range := "28-45",
        income_range := "$50k-$100k",
        education_level := "Bachelors degree or higher",
        job_titles := [industry ++ " Manager", industry ++ " Specialist",
          industry ++ " Coordinator"],
        company_size := some "10-500 employees",
        location_type := "Urban and suburban areas" },
      behavior := {
        preferred_communication_channels :=
          ["Email", "Professional networks", "Industry forums"],
        decision_making_process := "Research-driven, compares multiple options",
        budget_authority := "Recommends purchases, needs approval for large expenses",
        technology_adoption := "Early majority, adopts proven solutions",
        research_habits := ["Online reviews", "Peer recommendations", "Free trials"],
        objections_concerns := ["Cost", "Learning curve", "Integration challenges"] },
      pain_points := ["Manual processes in " ++ industry, "Time-consuming tasks",
        "Lack of automation"],
      goals_motivations := ["Increase efficiency", "Reduce manual work",
        "Improve results"],
      preferred_features := ["Easy to use", "Good integration", "Reliable support"] }],
    secondary_personas := [],
    persona_prioritization := [("primary", industry ++ " Professional")],
    cross_persona_insights :=
      ["Most " ++ industry ++ " users value efficiency over features",
       "Price sensitivity varies by company size",
       "Integration capabilities are crucial"],
    market_segmentation := .dictVal [
      ("by_company_size", "Small (1-50), Medium (51-500), Large (500+)"),
      ("by_role", "Managers, Specialists, Decision makers")],
    research_methodology := ["reddit_analysis", "demographic_research"],
    sample_size := some ((insightCount : ℤ) * 3),
    confidence_score := 6 }

/-- Embeds user_persona_analysis_agent of agents/user_persona_analysis_agent.py. -/
def userPersonaAnalysisAgent (o : Oracles) (s : BusinessIdeaGenerationState) :
    StateUpdate :=
  match o.personaFatal with
  | some m =>
    failUpdate "user_persona_analysis_failed" ("User persona analysis failed: " ++ m) s
  | none =>
    let industry := s.user_input.industry_market
    let persona_insights := gatherSignals o.searchOnly (personaQueries industry)
    let structured_personas :=
      match llmStructured o.llmPersona validPersonaOutput with
      | .ok v =>
        { v with
          market_segmentation := fixSegmentation v.market_segmentation,
          sample_size := fixSampleSize v.sample_size persona_insights.length }
      | .error _ => personaFallbackOutput industry persona_insights.length
    { research_output := some (mergePersonaSlot s.research_output structured_personas),
      current_step := some "user_persona_analysis_complete",
      tools_used := some (s.tools_used ++ ["reddit_search", "azure_llm"]) }

/-- One entry of the signals list of the niche scanner: a dict with source,
subdomain and either results (success) or error (caught exception text). -/
structure SignalRecord where
  source : String
  subdomain : String
  payload : Except String String
deriving Repr

/-- Embeds the per-subdomain signal collection of the niche scanner.  The
reddit call is an ordinary guarded provider call.  The twitter call passes the
keyword argument language to search_tweets, whose parameter is named lang, so
the call raises a TypeError before any network traffic; the surrounding except
turns it into an error entry on every iteration. -/
def nicheSignals (o : Oracles) : List String → List SignalRecord
  | [] => []
  | sd :: rest =>
    let q := sd ++ " problems OR inefficiencies OR pain points"
    let redditEntry :=
      match o.searchOnly q with
      | .ok r => { source := "reddit", subdomain := sd, payload := .ok r : SignalRecord }
      | .error e => { source := "reddit", subdomain := sd, payload := .error e }
    let twitterEntry : SignalRecord :=
      { source := "twitter", subdomain := sd,
        payload := .error "search_tweets() got an unexpected keyword argument language" }
    redditEntry :: twitterEntry :: nicheSignals o rest

/-- Embeds the get_trend loop inside the single try of the niche scanner:
a failure aborts the remaining iterations and appends one error entry. -/
def nicheTrendLoop (o : Oracles) : List PainPoint → List (Except String String)
  | [] => []
  | p :: rest =>
    match o.getTrend p.problem_description with
    | .ok t => .ok t :: nicheTrendLoop o rest
    | .error e => [.error ("Trend fetch failed: " ++ e)]

/-- Embeds the trend_data block of the niche scanner: rising_trends for the
industry, then get_trend for the top five pain points, all inside one try;
the first failure yields a single trailing error entry. -/
def nicheTrendData (o : Oracles) (industry : String) (pps : List PainPoint) :
    List (Except String String) :=
  match o.risingTrends industry with
  | .error e => [.error ("Trend fetch failed: " ++ e)]
  | .ok r => .ok r :: nicheTrendLoop o (pps.take 5)

/-- Embeds niche_opportunity_scanner_agent of
agents/niche_opportunity_scanner_agent.py.  Reading
state.research_output.pain_point_discovery on an absent record raises an
AttributeError caught only by the outer except; the structured-output call and
the JSON file save are not guarded by any inner handler either, so all three
failures fall through to the outer except, which returns no slot. -/
def nicheOpportunityScannerAgent (o : Oracles) (s : BusinessIdeaGenerationState) :
    StateUpdate :=
  match o.nicheFatal with
  | some m =>
    failUpdate "niche_opportunity_scanner_failed"
      ("Niche opportunity scanner failed: " ++ m) s
  | none =>
    match s.research_output with
    | none =>
      failUpdate "niche_opportunity_scanner_failed"
        ("Niche opportunity scanner failed: AttributeError: NoneType object has no attribute pain_point_discovery") s
    | some ro =>
      let industry := s.user_input.industry_market
      let pain_points :=
        match ro.pain_point_discovery with
        | some p => p.pain_points
        | none => []
      let subdomains :=
        match ro.pain_point_discovery with
        | some p => p.top_pain_categories
        | none => [industry]
      let _personas :=
        match ro.user_persona_analysis with
        | some u => u.primary_personas
        | none => ([] : List UserPersona)
      let _signals := nicheSignals o subdomains
      let _trend_data := nicheTrendData o industry pain_points
      match llmStructured o.llmNiche validNicheOutput with
      | .error m =>
        failUpdate "niche_opportunity_scanner_failed"
          ("Niche opportunity scanner failed: " ++ m) s
      | .ok structured_output =>
        match o.nicheSave with
        | .error m =>
          failUpdate "niche_opportunity_scanner_failed"
            ("Niche opportunity scanner failed: " ++ m) s
        | .ok _ =>
          { research_output :=
              some (mergeNicheSlot s.research_output structured_output),
            current_step := some "niche_opportunity_scanner_complete",
            tools_used := some (s.tools_used ++
              ["reddit_search", "twitter_search", "google_trends", "azure_llm"]) }

/-- Fallback BusinessIdea constructed in the except handler of the business
model generator agent. -/
def businessFallbackIdea : BusinessIdea :=
  { idea_name := "Agent-powered Compliance Monitor",
    niche := "B2B Transportation SaaS",
    description := "A system that uses multiple LLM agents to monitor regulations, contracts, and compliance updates across regions.",
    workflow_design := "One agent monitors government feeds, another parses contracts, and a third alerts operators with actionable summaries.",
    unique_value_prop := "Automates compliance tracking in highly regulated industries where manual monitoring is costly.",
    monetization_strategy := "Enterprise SaaS subscriptions.",
    target_persona := "Operations managers in transportation companies.",
    feasibility_score := 7.5,
    supporting_evidence := ["trend: compliance automation", "pain_point: regulatory overhead"] }

/-- Fallback BusinessModelGeneratorOutput: exactly one canonical idea. -/
def businessFallbackOutput : BusinessModelGeneratorOutput :=
  { ideas := [businessFallbackIdea],
    recommended_idea := some businessFallbackIdea.idea_name,
    confidence_score := 6.5 }

/-- Update returned by the except handler of the business model generator:
the fallback lands under the top-level key business_model_generator, which is
not a field of the state schema, not under the research_output record. -/
def businessFallbackUpdate (s : BusinessIdeaGenerationState) (message : String) :
    StateUpdate :=
  { extra_business_model_generator := some businessFallbackOutput,
    current_step := some "business_model_generator_fallback",
    errors := some (s.errors ++ ["Business model generator failed: " ++ message]) }

/-- Embeds business_model_generator_agent of
agents/business_model_generator_agent.py.  Reading
state.research_output.user_persona_analysis on an absent record raises an
AttributeError; every exception of the body, including an inference failure,
reaches the single except handler, which builds the fallback update. -/
def businessModelGeneratorAgent (o : Oracles) (s : BusinessIdeaGenerationState) :
    StateUpdate :=
  match o.businessFatal with
  | some m => businessFallbackUpdate s m
  | none =>
    match s.research_output with
    | none =>
      businessFallbackUpdate s
        "AttributeError: NoneType object has no attribute user_persona_analysis"
    | some ro =>
      let _personas :=
        match ro.user_persona_analysis with
        | some u => u.primary_personas
        | none => ([] : List UserPersona)
      let _pain_points :=
        match ro.pain_point_discovery with
        | some p => p.pain_points
        | none => ([] : List PainPoint)
      let _market_trends :=
        match ro.market_research with
        | some m => m.market_trends
        | none => ([] : List MarketTrend)
      let _niches :=
        match ro.niche_opportunity with
        | some n => n.niches
        | none => ([] : List NicheOpportunity)
      match llmStructured o.llmBusiness validBusinessOutput with
      | .error m => businessFallbackUpdate s m
      | .ok structured_output =>
        { research_output :=
            some (mergeBusinessSlot s.research_output structured_output),
          phase1_complete := some true,
          current_step := some "business_model_generator_complete",
          tools_used := some (s.tools_used ++ ["azure_llm"]) }

/-- Modelled from the spec: agents/validate_ideas_agent.py (imported by
graph/workflow.py as business_model_validation_agent) is not among the
repository sources; only its import and its node registration are.  Following
the spec (terminal stage of the fixed chain, the agent execution contract and
the tool ledger): the stage executes exactly once, on success sets the
terminal success label and appends its tool identifier, and on inference
failure appends a human-readable error and sets a distinct failure label,
leaving all other state keys untouched. -/
def businessModelValidationAgent (o : Oracles) (s : BusinessIdeaGenerationState) :
    StateUpdate :=
  if o.llmValidationOk then
    { current_step := some "business_model_validation_complete",
      tools_used := some (s.tools_used ++ ["azure_llm"]) }
  else
    { current_step := some "business_model_validation_failed",
      errors := some (s.errors ++ ["Business model validation failed"]) }

/-- Type of an agent node as wired into the LangGraph workflow. -/
def AgentFn : Type :=
  Oracles → BusinessIdeaGenerationState → StateUpdate

/-- One orchestrator step: run the node on the accumulated state and fold its
partial update into the state before the next node starts. -/
def stepState (o : Oracles) (s : BusinessIdeaGenerationState) (f : AgentFn) :
    BusinessIdeaGenerationState :=
  applyUpdate s (f o s)

/-- The stage sequence of create_business_idea_workflow in graph/workflow.py,
in the order induced by its add_edge chain from the entry point.  The node
business_model_generator_agent registered without any edge is unreachable and
never executes. -/
def pipelineStages : List AgentFn :=
  [marketResearchAgent, painPointDiscoveryAgent, userPersonaAnalysisAgent,
   nicheOpportunityScannerAgent, businessModelGeneratorAgent,
   businessModelValidationAgent]

/-- Sequential execution of the compiled workflow: fold every stage of the
fixed chain, in order, over the initial state. -/
def runPipeline (o : Oracles) (s : BusinessIdeaGenerationState) :
    BusinessIdeaGenerationState :=
  pipelineStages.foldl (stepState o) s

/-- States observed at the stage boundaries: the initial state followed by
the state after each stage folds its update in. -/
def runTrace (o : Oracles) (s : BusinessIdeaGenerationState) :
    List BusinessIdeaGenerationState :=
  pipelineStages.scanl (stepState o) s

/-- Node names registered by create_business_idea_workflow, in registration
order. -/
def workflowNodes : List String :=
  ["market_research", "pain_point_discovery", "user_persona_analysis",
   "business_model_generator_agent", "niche_opportunity_scanner",
   "business_model_generator", "business_model_validation"]

/-- Entry point set by create_business_idea_workflow. -/
def workflowEntry : String := "market_research"

/-- Edges added by create_business_idea_workflow (END is the LangGraph
terminal marker). -/
def workflowEdges : List (String × String) :=
  [("market_research", "pain_point_discovery"),
   ("pain_point_discovery", "user_persona_analysis"),
   ("user_persona_analysis", "niche_opportunity_scanner"),
   ("niche_opportunity_scanner", "business_model_generator"),
   ("business_model_generator", "business_model_validation"),
   ("business_model_validation", "END")]

/-- Successor of a node along the unconditional edges of the workflow. -/
def nextNode (n : String) : Option String :=
  (workflowEdges.find? (fun e => e.1 == n)).map (fun e => e.2)

/-- Chain of nodes reached from a node by following the workflow edges
(fuel-bounded; stops at END or at a node without a successor). -/
def chainFrom : String → ℕ → List String
  | _, 0 => []
  | n, k + 1 =>
    n :: (match nextNode n with
      | some m => if m == "END" then [] else chainFrom m k
      | none => [])

/-- Bound validity of a whole research record: every populated slot passes
the pydantic score bounds of its schema. -/
def validRecord (r : Phase1ResearchOutput) : Bool :=
  r.market_research.all validMarketResearchOutput &&
  r.pain_point_discovery.all validPainOutput &&
  r.user_persona_analysis.all validPersonaOutput &&
  r.niche_opportunity.all validNicheOutput &&
  r.business_model_generator.all validBusinessOutput

/-- Bound validity of an optional research record (an absent record is
vacuously valid). -/
def validRecordOpt (r : Option Phase1ResearchOutput) : Bool :=
  r.all validRecord

/-- Oracle on which every provider call and every structured-output call
fails, no save succeeds, and no unexpected exception fires. -/
def oAllFail : Oracles :=
  { getTrend := fun _ => .error "429 Too Many Requests",
    searchOnly := fun _ => .error "401 Unauthorized",
    searchTweets := fun _ => .error "403 Forbidden",
    risingTrends := fun _ => .error "429 Too Many Requests",
    llmMarketResearch := .error "APITimeoutError",
    llmMarketPain := .error "APITimeoutError",
    llmPain := .error "APITimeoutError",
    llmPersona := .error "APITimeoutError",
    llmNiche := .error "APITimeoutError",
    llmBusiness := .error "APITimeoutError",
    llmValidationOk := false,
    nicheSave := .error "OSError: read-only file system" }

/-- Oracle on which every agent hits an unexpected exception outside its
guarded calls. -/
def oAllFatal : Oracles :=
  { oAllFail with
    marketFatal := some "KeyError",
    painFatal := some "KeyError",
    personaFatal := some "KeyError",
    nicheFatal := some "KeyError",
    businessFatal := some "KeyError" }

/-- Scenario user input of spec section 8: industry E-commerce, region
United States. -/
def uiEcom : UserInput :=
  { country_region := "United States",
    industry_market := "E-commerce",
    target_market_type := .B2C }

/-- Initial pipeline state for the E-commerce scenario (research record
absent, as at pipeline start). -/
def sEcom : BusinessIdeaGenerationState :=
  { user_input := uiEcom }

/-- User input mirroring the test driver in main.py. -/
def uiTransport : UserInput :=
  { country_region := "Italia",
    industry_market := "transportation",
    target_market_type := .B2B }

/-- Initial pipeline state for the transportation input. -/
def sTransport : BusinessIdeaGenerationState :=
  { user_input := uiTransport }

/-- Minimal schema-valid niche slot value used to build prior records. -/
def nicheStub : NicheOpportunityScannerOutput :=
  { confidence_score := 5 }

/-- State whose research record already carries a populated niche slot
(exercising merges against a prior record). -/
def sWithNiche : BusinessIdeaGenerationState :=
  { user_input := uiTransport,
    research_output := some { niche_opportunity := some nicheStub } }

theorem llmStructured_ok_valid {α : Type} (r : Except String α) (valid : α → Bool)
    (v : α) (h : llmStructured r valid = .ok v) : valid v = true := by
  cases r with
  | error e => simp [llmStructured] at h
  | ok w =>
    by_cases hv : valid w = true
    · simp [llmStructured, hv] at h
      exact h ▸ hv
    · simp [llmStructured, Bool.eq_false_iff.mpr hv] at h

/-- C1: the claim that every agent, on every input state, returns an update
holding a structured value at its own research-record slot fails: the niche
opportunity scanner, run on a state whose research record is still absent,
raises on the dependency read, falls to its outer except handler and returns
an update with no research_output key at all. -/
theorem niche_scanner_absent_record_returns_no_slot :
    (nicheOpportunityScannerAgent oAllFail sTransport).research_output = none ∧
    (nicheOpportunityScannerAgent oAllFail sTransport).current_step =
      some "niche_opportunity_scanner_failed" :=
  ⟨rfl, rfl⟩

/-- C1 (amended): the three agents that guard their inference call with a
fallback constructor — market research, pain-point discovery, persona
analysis — always return an update populating their own slot, absent an
unexpected exception, for every input state and every pattern of provider and
inference failures; the guarantee does not extend to the niche scanner or the
business-model generator. -/
theorem guarded_agents_always_populate_own_slot (o : Oracles)
    (s : BusinessIdeaGenerationState) (hm : o.marketFatal = none)
    (hp : o.painFatal = none) (hu : o.personaFatal = none) :
    ((marketResearchAgent o s).research_output.bind
      (fun r => r.market_research)).isSome = true ∧
    ((painPointDiscoveryAgent o s).research_output.bind
      (fun r => r.pain_point_discovery)).isSome = true ∧
    ((userPersonaAnalysisAgent o s).research_output.bind
      (fun r => r.user_persona_analysis)).isSome = true := by
  refine ⟨?_, ?_, ?_⟩
  · simp only [marketResearchAgent, hm]
    rfl
  · simp only [painPointDiscoveryAgent, hp]
    rfl
  · simp only [userPersonaAnalysisAgent, hu]
    rfl

theorem guarded_agents_always_populate_own_slot_witness :
    ((marketResearchAgent oAllFail sEcom).research_output.bind
      (fun r => r.market_research)).isSome = true ∧
    ((painPointDiscoveryAgent oAllFail sEcom).research_output.bind
      (fun r => r.pain_point_discovery)).isSome = true ∧
    ((userPersonaAnalysisAgent oAllFail sEcom).research_output.bind
      (fun r => r.user_persona_analysis)).isSome = true :=
  guarded_agents_always_populate_own_slot oAllFail sEcom rfl rfl rfl

/-- C2: the claim that a merged record always agrees with the prior record on
every slot other than the one being written fails for the market research
agent: it constructs a fresh Phase1ResearchOutput, so a previously populated
niche slot is dropped, and it also writes the pain_point_discovery slot owned
by a different agent. -/
theorem market_agent_merge_destroys_other_slots :
    ((marketResearchAgent oAllFail sWithNiche).research_output.map
      (fun r => r.niche_opportunity)) = some none ∧
    ((marketResearchAgent oAllFail sWithNiche).research_output.map
      (fun r => r.pain_point_discovery.isSome)) = some true :=
  ⟨rfl, rfl⟩

/-- C2 (amended): the spread-merge idiom used by the pain-point discovery,
persona analysis, niche scanner and business-model generator agents is
non-destructive: it sets exactly the agent-owned slot and preserves every
other slot of the prior record; the market research agent instead rebuilds
the record from scratch, writing both the market_research and the
pain_point_discovery slots and discarding prior slots. -/
theorem spread_merge_non_destructive (r : Phase1ResearchOutput)
    (vp : PainPointDiscoveryOutput) (vu : UserPersonaAnalysisOutput)
    (vn : NicheOpportunityScannerOutput) (vb : BusinessModelGeneratorOutput) :
    ((mergePainSlot (some r) vp).pain_point_discovery = some vp ∧
      (mergePainSlot (some r) vp).market_research = r.market_research ∧
      (mergePainSlot (some r) vp).user_persona_analysis = r.user_persona_analysis ∧
      (mergePainSlot (some r) vp).niche_opportunity = r.niche_opportunity ∧
      (mergePainSlot (some r) vp).business_model_generator = r.business_model_generator) ∧
    ((mergePersonaSlot (some r) vu).user_persona_analysis = some vu ∧
      (mergePersonaSlot (some r) vu).market_research = r.market_research ∧
      (mergePersonaSlot (some r) vu).pain_point_discovery = r.pain_point_discovery ∧
      (mergePersonaSlot (some r) vu).niche_opportunity = r.niche_opportunity ∧
      (mergePersonaSlot (some r) vu).business_model_generator = r.business_model_generator) ∧
    ((mergeNicheSlot (some r) vn).niche_opportunity = some vn ∧
      (mergeNicheSlot (some r) vn).market_research = r.market_research ∧
      (mergeNicheSlot (some r) vn).pain_point_discovery = r.pain_point_discovery ∧
      (mergeNicheSlot (some r) vn).user_persona_analysis = r.user_persona_analysis ∧
      (mergeNicheSlot (some r) vn).business_model_generator = r.business_model_generator) ∧
    ((mergeBusinessSlot (some r) vb).business_model_generator = some vb ∧
      (mergeBusinessSlot (some r) vb).market_research = r.market_research ∧
      (mergeBusinessSlot (some r) vb).pain_point_discovery = r.pain_point_discovery ∧
      (mergeBusinessSlot (some r) vb).user_persona_analysis = r.user_persona_analysis ∧
      (mergeBusinessSlot (some r) vb).niche_opportunity = r.niche_opportunity) :=
  ⟨⟨rfl, rfl, rfl, rfl, rfl⟩, ⟨rfl, rfl, rfl, rfl, rfl⟩,
   ⟨rfl, rfl, rfl, rfl, rfl⟩, ⟨rfl, rfl, rfl, rfl, rfl⟩⟩

/-- C3: the claim that an inference failure always yields a fallback-labelled
current_step and an appended error fails: the pain-point discovery agent,
with its structured-output call failing, still returns the success label
pain_point_discovery_complete and no errors key at all. -/
theorem pain_agent_inference_failure_keeps_success_label :
    (painPointDiscoveryAgent oAllFail sTransport).current_step =
      some "pain_point_discovery_complete" ∧
    (painPointDiscoveryAgent oAllFail sTransport).errors = none :=
  ⟨rfl, rfl⟩

/-- C3 (amended): on inference failure the market-research, pain-point and
persona agents keep the success label and leave errors untouched; the
fallback is distinguishable only through the conservative confidence_score 6
of the stored slot value.  Only the business-model generator sets a distinct
fallback label and appends an error message — and it places the fallback at a
top-level key, not in the research record. -/
theorem fallback_markers (o : Oracles) (s : BusinessIdeaGenerationState)
    (r : Phase1ResearchOutput) (m m2 : String) (hp : o.painFatal = none)
    (hl : o.llmPain = Except.error m) (hb : o.businessFatal = none)
    (hr : s.research_output = some r) (hbl : o.llmBusiness = Except.error m2) :
    (painPointDiscoveryAgent o s).current_step =
      some "pain_point_discovery_complete" ∧
    (painPointDiscoveryAgent o s).errors = none ∧
    ((painPointDiscoveryAgent o s).research_output.bind
        (fun x => x.pain_point_discovery)).map (fun v => v.confidence_score) =
      some 6 ∧
    (businessModelGeneratorAgent o s).current_step =
      some "business_model_generator_fallback" ∧
    "business_model_generator_fallback" ≠ "business_model_generator_complete" ∧
    (businessModelGeneratorAgent o s).errors =
      some (s.errors ++ ["Business model generator failed: " ++ m2]) ∧
    (businessModelGeneratorAgent o s).research_output = none := by
  have hpa : painPointDiscoveryAgent o s =
      { research_output := some (mergePainSlot s.research_output
          (painFallbackOutput s.user_input.industry_market
            (gatherSignals o.searchOnly
              (marketRedditQueries s.user_input.industry_market)).length)),
        extra_pain_point_discovery := some (painFallbackOutput
          s.user_input.industry_market
          (gatherSignals o.searchOnly
            (marketRedditQueries s.user_input.industry_market)).length),
        current_step := some "pain_point_discovery_complete",
        tools_used := some (s.tools_used ++ ["reddit_search", "azure_llm"]) } := by
    simp only [painPointDiscoveryAgent, hp, llmStructured, hl]
  have hba : businessModelGeneratorAgent o s = businessFallbackUpdate s m2 := by
    simp only [businessModelGeneratorAgent, hb, hr, llmStructured, hbl]
  refine ⟨?_, ?_, ?_, ?_, ?_, ?_, ?_⟩
  · rw [hpa]
  · rw [hpa]
  · rw [hpa]
    rfl
  · rw [hba]
    rfl
  · intro h
    simp at h
  · rw [hba]
    rfl
  · rw [hba]
    rfl

theorem fallback_markers_witness :
    (painPointDiscoveryAgent oAllFail sWithNiche).current_step =
      some "pain_point_discovery_complete" ∧
    (painPointDiscoveryAgent oAllFail sWithNiche).errors = none ∧
    ((painPointDiscoveryAgent oAllFail sWithNiche).research_output.bind
        (fun x => x.pain_point_discovery)).map (fun v => v.confidence_score) =
      some 6 ∧
    (businessModelGeneratorAgent oAllFail sWithNiche).current_step =
      some "business_model_generator_fallback" ∧
    "business_model_generator_fallback" ≠ "business_model_generator_complete" ∧
    (businessModelGeneratorAgent oAllFail sWithNiche).errors =
      some (sWithNiche.errors ++
        ["Business model generator failed: " ++ "APITimeoutError"]) ∧
    (businessModelGeneratorAgent oAllFail sWithNiche).research_output = none :=
  fallback_markers oAllFail sWithNiche { niche_opportunity := some nicheStub }
    "APITimeoutError" "APITimeoutError" rfl rfl rfl rfl rfl

/-- C4: the claim about the E-commerce scenario fails on the code: with every
provider call and both structured-output calls failing, the market research
stage still returns the success label market_research_complete, no errors key
(so nothing containing the string Market research failed), and an EMPTY
market-trends list, because parse_api_data on empty gathered signals produces
no trends. -/
theorem market_scenario_all_providers_fail_cex :
    (marketResearchAgent oAllFail sEcom).current_step =
      some "market_research_complete" ∧
    (marketResearchAgent oAllFail sEcom).errors = none ∧
    ((marketResearchAgent oAllFail sEcom).research_output.bind
        (fun r => r.market_research)).map (fun m => m.market_trends.length) =
      some 0 :=
  ⟨rfl, rfl, rfl⟩

/-- C4 (amended): in the E-commerce scenario with all providers and both
inference calls failing, the stage returns the success label, leaves errors
untouched and populates the market-trends slot with zero trends; the string
Market research failed is appended only when an unexpected exception reaches
the outer handler, and that path returns no research_output key at all. -/
theorem market_scenario_failure_behavior (o : Oracles)
    (s : BusinessIdeaGenerationState) (m : String)
    (hf : o.marketFatal = some m) :
    ((marketResearchAgent oAllFail sEcom).current_step =
        some "market_research_complete" ∧
      (marketResearchAgent oAllFail sEcom).errors = none ∧
      ((marketResearchAgent oAllFail sEcom).research_output.bind
          (fun r => r.market_research)).map (fun x => x.market_trends.length) =
        some 0) ∧
    (marketResearchAgent o s).research_output = none ∧
    (marketResearchAgent o s).current_step = some "market_research_failed" ∧
    (marketResearchAgent o s).errors =
      some (s.errors ++ ["Market research failed: " ++ m]) := by
  have ha : marketResearchAgent o s =
      failUpdate "market_research_failed" ("Market research failed: " ++ m) s := by
    simp only [marketResearchAgent, hf]
  exact ⟨⟨rfl, rfl, rfl⟩, by rw [ha]; rfl, by rw [ha]; rfl, by rw [ha]; rfl⟩

theorem market_scenario_failure_behavior_witness :
    ((marketResearchAgent oAllFail sEcom).current_step =
        some "market_research_complete" ∧
      (marketResearchAgent oAllFail sEcom).errors = none ∧
      ((marketResearchAgent oAllFail sEcom).research_output.bind
          (fun r => r.market_research)).map (fun x => x.market_trends.length) =
        some 0) ∧
    (marketResearchAgent oAllFatal sEcom).research_output = none ∧
    (marketResearchAgent oAllFatal sEcom).current_step =
      some "market_research_failed" ∧
    (marketResearchAgent oAllFatal sEcom).errors =
      some (sEcom.errors ++ ["Market research failed: " ++ "KeyError"]) :=
  market_scenario_failure_behavior oAllFatal sEcom "KeyError" rfl

/-- C5: the claim that every fallback-constructed list-valued result holds
exactly one canonical entry, for every input including empty signal sets,
fails: parse_api_data on empty gathered signals builds the market research
fallback lists with zero entries. -/
theorem parse_api_data_empty_signals_cex :
    (parse_api_data [] [] "transportation").1.length = 0 ∧
    (parse_api_data [] [] "transportation").2.length = 0 ∧
    ¬ (parse_api_data [] [] "transportation").1.length = 1 :=
  ⟨rfl, rfl, by decide⟩

theorem enumMap_length {α β : Type} (f : ℕ → α → β) :
    ∀ (i : ℕ) (l : List α), (enumMap f i l).length = l.length := by
  intro i l
  induction l generalizing i with
  | nil => rfl
  | cons a as ih => simp [enumMap, ih]

/-- C5 (amended): the dedicated fallback constructors of the pain-point
discovery, persona analysis and business-model generator agents each emit
exactly one canonical list entry; the market research fallback instead
derives its lists from the gathered signals via parse_api_data, yielding
min 3 trend entries and min 5 pain-point entries — zero of each when the
gathered signal sets are empty — and the niche scanner has no fallback
constructor at all. -/
theorem fallback_list_cardinalities (industry : String) (n : ℕ)
    (td ri : List SignalEntry) :
    (painFallbackOutput industry n).pain_points.length = 1 ∧
    (personaFallbackOutput industry n).primary_personas.length = 1 ∧
    businessFallbackOutput.ideas.length = 1 ∧
    (parse_api_data td ri industry).1.length = min 3 td.length ∧
    (parse_api_data td ri industry).2.length = min 5 ri.length := by
  refine ⟨rfl, rfl, rfl, ?_, ?_⟩
  · by_cases h : td.isEmpty
    · rw [List.isEmpty_iff] at h
      subst h
      rfl
    · simp only [parse_api_data, h, if_false, Bool.false_eq_true,
        enumMap_length, List.length_take]
  · by_cases h : ri.isEmpty
    · rw [List.isEmpty_iff] at h
      subst h
      rfl
    · simp only [parse_api_data, h, if_false, Bool.false_eq_true,
        enumMap_length, List.length_take]

/-- C7: the claim that absence of an upstream dependency is always tolerated
by substituting an empty collection fails when the research record itself is
absent: the niche scanner then raises on the attribute read, ends in its
outer except handler and reports failure instead of proceeding. -/
theorem niche_scanner_fails_on_absent_record :
    (nicheOpportunityScannerAgent oAllFail sEcom).current_step =
      some "niche_opportunity_scanner_failed" ∧
    (nicheOpportunityScannerAgent oAllFail sEcom).errors =
      some ["Niche opportunity scanner failed: AttributeError: NoneType object has no attribute pain_point_discovery"] :=
  ⟨rfl, rfl⟩

/-- C7 (amended): when the research record is present, absent individual
slots are tolerated (the niche scanner proceeds for every record, including
one with all slots absent, and populates its slot when inference and the file
save succeed); but when the record itself is absent, the attribute read
raises: the niche scanner falls to its outer error handler and the
business-model generator falls to its fallback handler. -/
theorem dependency_absence_behavior (o : Oracles)
    (s : BusinessIdeaGenerationState) (hn : o.nicheFatal = none)
    (hb : o.businessFatal = none) :
    (s.research_output = none →
      nicheOpportunityScannerAgent o s =
        failUpdate "niche_opportunity_scanner_failed"
          "Niche opportunity scanner failed: AttributeError: NoneType object has no attribute pain_point_discovery" s ∧
      businessModelGeneratorAgent o s =
        businessFallbackUpdate s
          "AttributeError: NoneType object has no attribute user_persona_analysis") ∧
    (∀ (ro : Phase1ResearchOutput) (out : NicheOpportunityScannerOutput),
      s.research_output = some ro →
      llmStructured o.llmNiche validNicheOutput = Except.ok out →
      o.nicheSave = Except.ok () →
      nicheOpportunityScannerAgent o s =
        { research_output := some (mergeNicheSlot s.research_output out),
          current_step := some "niche_opportunity_scanner_complete",
          tools_used := some (s.tools_used ++
            ["reddit_search", "twitter_search", "google_trends", "azure_llm"]) }) := by
  constructor
  · intro h0
    constructor
    · simp only [nicheOpportunityScannerAgent, hn, h0]
    · simp only [businessModelGeneratorAgent, hb, h0]
  · intro ro out hro hout hsave
    simp only [nicheOpportunityScannerAgent, hn, hro, hout, hsave]

theorem dependency_absence_behavior_witness :
    nicheOpportunityScannerAgent oAllFail sEcom =
      failUpdate "niche_opportunity_scanner_failed"
        "Niche opportunity scanner failed: AttributeError: NoneType object has no attribute pain_point_discovery" sEcom ∧
    businessModelGeneratorAgent oAllFail sEcom =
      businessFallbackUpdate sEcom
        "AttributeError: NoneType object has no attribute user_persona_analysis" :=
  (dependency_absence_behavior oAllFail sEcom rfl rfl).1 rfl

/-- C10: when the outer (fatal-path) exception handler of the market
research, pain-point discovery, niche scanner or persona analysis agent is
reached, the returned update carries only the current_step and errors keys,
so folding it into the pipeline state leaves the user input, the research
record, the tools_used ledger and the phase-completion flag exactly as they
were, changing only the step label and appending one error message. -/
theorem fatal_path_frame (o : Oracles) (s : BusinessIdeaGenerationState)
    (m1 m2 m3 m4 : String) (h1 : o.marketFatal = some m1)
    (h2 : o.painFatal = some m2) (h3 : o.personaFatal = some m3)
    (h4 : o.nicheFatal = some m4) :
    (marketResearchAgent o s =
        failUpdate "market_research_failed" ("Market research failed: " ++ m1) s ∧
      applyUpdate s (marketResearchAgent o s) =
        { s with current_step := "market_research_failed",
                 errors := s.errors ++ ["Market research failed: " ++ m1] }) ∧
    (painPointDiscoveryAgent o s =
        failUpdate "pain_point_discovery_failed"
          ("Pain point discovery failed: " ++ m2) s ∧
      applyUpdate s (painPointDiscoveryAgent o s) =
        { s with current_step := "pain_point_discovery_failed",
                 errors := s.errors ++ ["Pain point discovery failed: " ++ m2] }) ∧
    (userPersonaAnalysisAgent o s =
        failUpdate "user_persona_analysis_failed"
          ("User persona analysis failed: " ++ m3) s ∧
      applyUpdate s (userPersonaAnalysisAgent o s) =
        { s with current_step := "user_persona_analysis_failed",
                 errors := s.errors ++ ["User persona analysis failed: " ++ m3] }) ∧
    (nicheOpportunityScannerAgent o s =
        failUpdate "niche_opportunity_scanner_failed"
          ("Niche opportunity scanner failed: " ++ m4) s ∧
      applyUpdate s (nicheOpportunityScannerAgent o s) =
        { s with current_step := "niche_opportunity_scanner_failed",
                 errors := s.errors ++ ["Niche opportunity scanner failed: " ++ m4] }) := by
  have e1 : marketResearchAgent o s =
      failUpdate "market_research_failed" ("Market research failed: " ++ m1) s := by
    simp only [marketResearchAgent, h1]
  have e2 : painPointDiscoveryAgent o s =
      failUpdate "pain_point_discovery_failed"
        ("Pain point discovery failed: " ++ m2) s := by
    simp only [painPointDiscoveryAgent, h2]
  have e3 : userPersonaAnalysisAgent o s =
      failUpdate "user_persona_analysis_failed"
        ("User persona analysis failed: " ++ m3) s := by
    simp only [userPersonaAnalysisAgent, h3]
  have e4 : nicheOpportunityScannerAgent o s =
      failUpdate "niche_opportunity_scanner_failed"
        ("Niche opportunity scanner failed: " ++ m4) s := by
    simp only [nicheOpportunityScannerAgent, h4]
  exact ⟨⟨e1, by rw [e1]; rfl⟩, ⟨e2, by rw [e2]; rfl⟩,
         ⟨e3, by rw [e3]; rfl⟩, ⟨e4, by rw [e4]; rfl⟩⟩

theorem fatal_path_frame_witness :
    (marketResearchAgent oAllFatal sTransport =
        failUpdate "market_research_failed"
          ("Market research failed: " ++ "KeyError") sTransport ∧
      applyUpdate sTransport (marketResearchAgent oAllFatal sTransport) =
        { sTransport with
          current_step := "market_research_failed",
          errors := sTransport.errors ++ ["Market research failed: " ++ "KeyError"] }) ∧
    (painPointDiscoveryAgent oAllFatal sTransport =
        failUpdate "pain_point_discovery_failed"
          ("Pain point discovery failed: " ++ "KeyError") sTransport ∧
      applyUpdate sTransport (painPointDiscoveryAgent oAllFatal sTransport) =
        { sTransport with
          current_step := "pain_point_discovery_failed",
          errors := sTransport.errors ++ ["Pain point discovery failed: " ++ "KeyError"] }) ∧
    (userPersonaAnalysisAgent oAllFatal sTransport =
        failUpdate "user_persona_analysis_failed"
          ("User persona analysis failed: " ++ "KeyError") sTransport ∧
      applyUpdate sTransport (userPersonaAnalysisAgent oAllFatal sTransport) =
        { sTransport with
          current_step := "user_persona_analysis_failed",
          errors := sTransport.errors ++ ["User persona analysis failed: " ++ "KeyError"] }) ∧
    (nicheOpportunityScannerAgent oAllFatal sTransport =
        failUpdate "niche_opportunity_scanner_failed"
          ("Niche opportunity scanner failed: " ++ "KeyError") sTransport ∧
      applyUpdate sTransport (nicheOpportunityScannerAgent oAllFatal sTransport) =
        { sTransport with
          current_step := "niche_opportunity_scanner_failed",
          errors := sTransport.errors ++ ["Niche opportunity scanner failed: " ++ "KeyError"] }) :=
  fatal_path_frame oAllFatal sTransport "KeyError" "KeyError" "KeyError" "KeyError"
    rfl rfl rfl rfl

theorem gatherSignals_length_le (f : String → Except String String) :
    ∀ qs : List String, (gatherSignals f qs).length ≤ qs.length := by
  intro qs
  induction qs with
  | nil => simp [gatherSignals]
  | cons q' qs ih =>
    cases h : f q' with
    | ok r =>
      simp only [gatherSignals, h, List.length_cons]
      exact Nat.succ_le_succ ih
    | error e =>
      simp only [gatherSignals, h, List.length_cons]
      exact Nat.le_succ_of_le ih

theorem gatherSignals_no_failed_query (f : String → Except String String)
    (q e : String) (hq : f q = Except.error e) :
    ∀ qs : List String,
      ((gatherSignals f qs).all fun en => en.query != q) = true := by
  intro qs
  induction qs with
  | nil => rfl
  | cons q' qs ih =>
    cases h : f q' with
    | ok r =>
      simp only [gatherSignals, h, List.all_cons, Bool.and_eq_true]
      refine ⟨?_, ih⟩
      simp only [bne_iff_ne, ne_eq]
      intro hqq
      rw [hqq, hq] at h
      exact Except.noConfusion h
    | error e2 =>
      simp only [gatherSignals, h]
      exact ih

theorem validation_step_labels (o : Oracles) (s : BusinessIdeaGenerationState) :
    (stepState o s businessModelValidationAgent).current_step =
      "business_model_validation_complete" ∨
    (stepState o s businessModelValidationAgent).current_step =
      "business_model_validation_failed" := by
  cases h : o.llmValidationOk with
  | true =>
    left
    simp only [stepState, businessModelValidationAgent, h, if_true, applyUpdate]
    rfl
  | false =>
    right
    simp only [stepState, businessModelValidationAgent, h, if_false, applyUpdate]
    rfl

/-- C6: provider fault isolation — a failing provider call inside a gather
loop is caught and the failed query simply contributes no entry, the gathered
set never exceeds the query list, the niche scanner's grouped trend block
degrades to a single error entry when rising_trends fails, and for every
oracle (hence every pattern of provider failures) all six pipeline stages
still execute and the run ends at a validation-stage label. -/
theorem provider_fault_isolation (o : Oracles) (s : BusinessIdeaGenerationState)
    (f : String → Except String String) (qs : List String) (q e : String)
    (hq : f q = Except.error e) :
    ((gatherSignals f qs).all fun en => en.query != q) = true ∧
    (gatherSignals f qs).length ≤ qs.length ∧
    (runTrace o s).length = 7 ∧
    ((runPipeline o s).current_step = "business_model_validation_complete" ∨
      (runPipeline o s).current_step = "business_model_validation_failed") ∧
    (∀ e2 industry pps, o.risingTrends industry = Except.error e2 →
      nicheTrendData o industry pps = [Except.error ("Trend fetch failed: " ++ e2)]) := by
  refine ⟨gatherSignals_no_failed_query f q e hq qs, gatherSignals_length_le f qs,
    rfl, ?_, ?_⟩
  · exact validation_step_labels o _
  · intro e2 industry pps h
    simp only [nicheTrendData, h]

theorem provider_fault_isolation_witness :
    ((gatherSignals oAllFail.searchOnly
        (marketRedditQueries "E-commerce")).all fun en =>
          en.query != "E-commerce problems") = true ∧
    (gatherSignals oAllFail.searchOnly
        (marketRedditQueries "E-commerce")).length ≤
      (marketRedditQueries "E-commerce").length ∧
    (runTrace oAllFail sEcom).length = 7 ∧
    ((runPipeline oAllFail sEcom).current_step =
        "business_model_validation_complete" ∨
      (runPipeline oAllFail sEcom).current_step =
        "business_model_validation_failed") ∧
    (∀ e2 industry pps, oAllFail.risingTrends industry = Except.error e2 →
      nicheTrendData oAllFail industry pps =
        [Except.error ("Trend fetch failed: " ++ e2)]) :=
  provider_fault_isolation oAllFail sEcom oAllFail.searchOnly
    (marketRedditQueries "E-commerce") "E-commerce problems"
    "401 Unauthorized" rfl

theorem stepState_tools_mono (o : Oracles) (s : BusinessIdeaGenerationState)
    (f : AgentFn)
    (h : (f o s).tools_used = none ∨
      ∃ l, (f o s).tools_used = some (s.tools_used ++ l)) :
    s.tools_used.length ≤ (stepState o s f).tools_used.length := by
  rcases h with h | ⟨l, h⟩
  · simp [stepState, applyUpdate, h]
  · simp [stepState, applyUpdate, h]

theorem marketAgent_tools_shape (o : Oracles) (s : BusinessIdeaGenerationState) :
    (marketResearchAgent o s).tools_used = none ∨
    ∃ l, (marketResearchAgent o s).tools_used = some (s.tools_used ++ l) := by
  cases h : o.marketFatal with
  | some m =>
    left
    simp only [marketResearchAgent, h]
    rfl
  | none =>
    right
    exact ⟨["google_trends", "reddit_search", "azure_llm"],
      by simp only [marketResearchAgent, h]⟩

theorem painAgent_tools_shape (o : Oracles) (s : BusinessIdeaGenerationState) :
    (painPointDiscoveryAgent o s).tools_used = none ∨
    ∃ l, (painPointDiscoveryAgent o s).tools_used = some (s.tools_used ++ l) := by
  cases h : o.painFatal with
  | some m =>
    left
    simp only [painPointDiscoveryAgent, h]
    rfl
  | none =>
    right
    exact ⟨["reddit_search", "azure_llm"],
      by simp only [painPointDiscoveryAgent, h]⟩

theorem personaAgent_tools_shape (o : Oracles) (s : BusinessIdeaGenerationState) :
    (userPersonaAnalysisAgent o s).tools_used = none ∨
    ∃ l, (userPersonaAnalysisAgent o s).tools_used = some (s.tools_used ++ l) := by
  cases h : o.personaFatal with
  | some m =>
    left
    simp only [userPersonaAnalysisAgent, h]
    rfl
  | none =>
    right
    exact ⟨["reddit_search", "azure_llm"],
      by simp only [userPersonaAnalysisAgent, h]⟩

theorem nicheAgent_tools_shape (o : Oracles) (s : BusinessIdeaGenerationState) :
    (nicheOpportunityScannerAgent o s).tools_used = none ∨
    ∃ l, (nicheOpportunityScannerAgent o s).tools_used = some (s.tools_used ++ l) := by
  cases h : o.nicheFatal with
  | some m =>
    left
    simp only [nicheOpportunityScannerAgent, h]
    rfl
  | none =>
    cases hr : s.research_output with
    | none =>
      left
      simp only [nicheOpportunityScannerAgent, h, hr]
      rfl
    | some ro =>
      cases hl : llmStructured o.llmNiche validNicheOutput with
      | error m =>
        left
        simp only [nicheOpportunityScannerAgent, h, hr, hl]
        rfl
      | ok out =>
        cases hs : o.nicheSave with
        | error m =>
          left
          simp only [nicheOpportunityScannerAgent, h, hr, hl, hs]
          rfl
        | ok u =>
          right
          exact ⟨["reddit_search", "twitter_search", "google_trends", "azure_llm"],
            by simp only [nicheOpportunityScannerAgent, h, hr, hl, hs]⟩

theorem businessAgent_tools_shape (o : Oracles) (s : BusinessIdeaGenerationState) :
    (businessModelGeneratorAgent o s).tools_used = none ∨
    ∃ l, (businessModelGeneratorAgent o s).tools_used = some (s.tools_used ++ l) := by
  cases h : o.businessFatal with
  | some m =>
    left
    simp only [businessModelGeneratorAgent, h]
    rfl
  | none =>
    cases hr : s.research_output with
    | none =>
      left
      simp only [businessModelGeneratorAgent, h, hr]
      rfl
    | some ro =>
      cases hl : llmStructured o.llmBusiness validBusinessOutput with
      | error m =>
        left
        simp only [businessModelGeneratorAgent, h, hr, hl]
        rfl
      | ok out =>
        right
        exact ⟨["azure_llm"],
          by simp only [businessModelGeneratorAgent, h, hr, hl]⟩

theorem validationAgent_tools_shape (o : Oracles) (s : BusinessIdeaGenerationState) :
    (businessModelValidationAgent o s).tools_used = none ∨
    ∃ l, (businessModelValidationAgent o s).tools_used = some (s.tools_used ++ l) := by
  cases h : o.llmValidationOk with
  | true =>
    right
    exact ⟨["azure_llm"], by simp only [businessModelValidationAgent, h, if_true]⟩
  | false =>
    left
    simp only [businessModelValidationAgent, h]
    rfl

/-- C8: the compiled workflow is the fixed strictly sequential chain market
research, pain-point discovery, persona analysis, niche scanning, idea
generation, validation: the run equals the six-fold left-to-right composition
(each stage folded into state before the next starts, each stage applied
exactly once, no branching), the trace has exactly seven states, the
tools_used ledger length is non-decreasing across every stage boundary, and
the chain induced by the add_edge data from the entry point is exactly that
stage order. -/
theorem pipeline_fixed_sequential_chain (o : Oracles)
    (s : BusinessIdeaGenerationState) :
    runPipeline o s =
      stepState o (stepState o (stepState o (stepState o (stepState o
        (stepState o s marketResearchAgent) painPointDiscoveryAgent)
        userPersonaAnalysisAgent) nicheOpportunityScannerAgent)
        businessModelGeneratorAgent) businessModelValidationAgent ∧
    (runTrace o s).length = 7 ∧
    List.Chain' (fun a b => a.tools_used.length ≤ b.tools_used.length)
      (runTrace o s) ∧
    chainFrom workflowEntry 6 =
      ["market_research", "pain_point_discovery", "user_persona_analysis",
       "niche_opportunity_scanner", "business_model_generator",
       "business_model_validation"] := by
  refine ⟨rfl, rfl, ?_, by decide⟩
  simp only [runTrace, pipelineStages, List.scanl, List.chain'_cons,
    List.chain'_singleton, and_true]
  exact ⟨stepState_tools_mono o _ _ (marketAgent_tools_shape o _),
    stepState_tools_mono o _ _ (painAgent_tools_shape o _),
    stepState_tools_mono o _ _ (personaAgent_tools_shape o _),
    stepState_tools_mono o _ _ (nicheAgent_tools_shape o _),
    stepState_tools_mono o _ _ (businessAgent_tools_shape o _),
    stepState_tools_mono o _ _ (validationAgent_tools_shape o _)⟩

theorem validRecordOpt_getD (r : Option Phase1ResearchOutput)
    (h : validRecordOpt r = true) :
    validRecord (r.getD emptyResearch) = true := by
  cases r with
  | none => rfl
  | some x => exact h

theorem validRecord_mergePainSlot (r : Option Phase1ResearchOutput)
    (v : PainPointDiscoveryOutput) (hr : validRecordOpt r = true)
    (hv : validPainOutput v = true) :
    validRecord (mergePainSlot r v) = true := by
  have hb : validRecord (r.getD emptyResearch) = true := validRecordOpt_getD r hr
  simp only [validRecord, mergePainSlot, Bool.and_eq_true] at hb ⊢
  exact ⟨⟨⟨⟨hb.1.1.1.1, hv⟩, hb.1.1.2⟩, hb.1.2⟩, hb.2⟩

theorem validRecord_mergePersonaSlot (r : Option Phase1ResearchOutput)
    (v : UserPersonaAnalysisOutput) (hr : validRecordOpt r = true)
    (hv : validPersonaOutput v = true) :
    validRecord (mergePersonaSlot r v) = true := by
  have hb : validRecord (r.getD emptyResearch) = true := validRecordOpt_getD r hr
  simp only [validRecord, mergePersonaSlot, Bool.and_eq_true] at hb ⊢
  exact ⟨⟨⟨⟨hb.1.1.1.1, hb.1.1.1.2⟩, hv⟩, hb.1.2⟩, hb.2⟩

theorem validRecord_mergeNicheSlot (r : Option Phase1ResearchOutput)
    (v : NicheOpportunityScannerOutput) (hr : validRecordOpt r = true)
    (hv : validNicheOutput v = true) :
    validRecord (mergeNicheSlot r v) = true := by
  have hb : validRecord (r.getD emptyResearch) = true := validRecordOpt_getD r hr
  simp only [validRecord, mergeNicheSlot, Bool.and_eq_true] at hb ⊢
  exact ⟨⟨⟨⟨hb.1.1.1.1, hb.1.1.1.2⟩, hb.1.1.2⟩, hv⟩, hb.2⟩

theorem validRecord_mergeBusinessSlot (r : Option Phase1ResearchOutput)
    (v : BusinessModelGeneratorOutput) (hr : validRecordOpt r = true)
    (hv : validBusinessOutput v = true) :
    validRecord (mergeBusinessSlot r v) = true := by
  have hb : validRecord (r.getD emptyResearch) = true := validRecordOpt_getD r hr
  simp only [validRecord, mergeBusinessSlot, Bool.and_eq_true] at hb ⊢
  exact ⟨⟨⟨⟨hb.1.1.1.1, hb.1.1.1.2⟩, hb.1.1.2⟩, hb.1.2⟩, hv⟩

theorem enumMap_trend_valid (ind : String) :
    ∀ (l : List SignalEntry) (i : ℕ), l.length + i ≤ 3 →
      ((enumMap (mkFallbackTrend ind) i l).all validMarketTrend) = true := by
  intro l
  induction l with
  | nil => intro i _; rfl
  | cons a as ih =>
    intro i hle
    simp only [List.length_cons] at hle
    have hi : i ≤ 2 := by omega
    have hiq : (i : ℚ) ≤ 2 := by exact_mod_cast hi
    simp only [enumMap, List.all_cons, Bool.and_eq_true]
    refine ⟨?_, ih (i + 1) (by omega)⟩
    simp only [validMarketTrend, mkFallbackTrend, scoreOkQ, Bool.and_eq_true,
      decide_eq_true_eq]
    constructor
    · linarith
    · linarith

theorem enumMap_pain_valid (ind : String) :
    ∀ (l : List SignalEntry) (i : ℕ), l.length + i ≤ 5 →
      ((enumMap (mkFallbackPain ind) i l).all validPainPoint) = true := by
  intro l
  induction l with
  | nil => intro i _; rfl
  | cons a as ih =>
    intro i hle
    simp only [List.length_cons] at hle
    have hi : i ≤ 4 := by omega
    have hiq : (i : ℚ) ≤ 4 := by exact_mod_cast hi
    have hiz : (i : ℤ) ≤ 4 := by exact_mod_cast hi
    simp only [enumMap, List.all_cons, Bool.and_eq_true]
    refine ⟨?_, ih (i + 1) (by omega)⟩
    simp only [validPainPoint, mkFallbackPain, scoreOkQ, scoreOkZ,
      Bool.and_eq_true, decide_eq_true_eq]
    refine ⟨⟨⟨by linarith, by linarith⟩, ⟨by norm_num, by norm_num⟩⟩,
      by linarith, by linarith⟩

theorem parse_api_data_valid (td ri : List SignalEntry) (ind : String) :
    ((parse_api_data td ri ind).1.all validMarketTrend) = true ∧
    ((parse_api_data td ri ind).2.all validPainPoint) = true := by
  constructor
  · by_cases h : td.isEmpty
    · simp [parse_api_data, h]
    · simp only [parse_api_data, h, if_false, Bool.false_eq_true]
      exact enumMap_trend_valid ind (td.take 3) 0
        (by simp [List.length_take_le])
  · by_cases h : ri.isEmpty
    · simp [parse_api_data, h]
    · simp only [parse_api_data, h, if_false, Bool.false_eq_true]
      exact enumMap_pain_valid ind (ri.take 5) 0
        (by simp [List.length_take_le])

theorem step_valid_market (o : Oracles) (s : BusinessIdeaGenerationState)
    (h : validRecordOpt s.research_output = true) :
    validRecordOpt ((stepState o s marketResearchAgent).research_output) = true := by
  cases hf : o.marketFatal with
  | some m =>
    simp only [stepState, marketResearchAgent, hf, failUpdate, applyUpdate]
    exact h
  | none =>
    simp only [stepState, marketResearchAgent, hf, applyUpdate]
    simp only [validRecordOpt, Option.all, validRecord, Bool.and_eq_true]
    refine ⟨⟨⟨⟨?_, ?_⟩, trivial⟩, trivial⟩, trivial⟩
    · cases hl : llmStructured o.llmMarketResearch validMarketResearchOutput with
      | ok v =>
        simp only [hl]
        exact llmStructured_ok_valid _ _ _ hl
      | error e =>
        simp only [hl]
        simp only [validMarketResearchOutput, marketFallbackOutput,
          Bool.and_eq_true]
        exact ⟨(parse_api_data_valid _ _ _).1, by decide⟩
    · cases hl : llmStructured o.llmMarketPain validPainOutput with
      | ok v =>
        simp only [hl]
        exact llmStructured_ok_valid _ _ _ hl
      | error e =>
        simp only [hl]
        simp only [validPainOutput, marketFallbackPainOutput, Bool.and_eq_true]
        exact ⟨(parse_api_data_valid _ _ _).2, by decide⟩

theorem step_valid_pain (o : Oracles) (s : BusinessIdeaGenerationState)
    (h : validRecordOpt s.research_output = true) :
    validRecordOpt ((stepState o s painPointDiscoveryAgent).research_output) = true := by
  cases hf : o.painFatal with
  | some m =>
    simp only [stepState, painPointDiscoveryAgent, hf, failUpdate, applyUpdate]
    exact h
  | none =>
    simp only [stepState, painPointDiscoveryAgent, hf, applyUpdate]
    show validRecord (mergePainSlot s.research_output _) = true
    refine validRecord_mergePainSlot _ _ h ?_
    cases hl : llmStructured o.llmPain validPainOutput with
    | ok v =>
      simp only [hl]
      exact llmStructured_ok_valid _ _ _ hl
    | error e =>
      simp only [hl]
      rfl

theorem step_valid_persona (o : Oracles) (s : BusinessIdeaGenerationState)
    (h : validRecordOpt s.research_output = true) :
    validRecordOpt ((stepState o s userPersonaAnalysisAgent).research_output) = true := by
  cases hf : o.personaFatal with
  | some m =>
    simp only [stepState, userPersonaAnalysisAgent, hf, failUpdate, applyUpdate]
    exact h
  | none =>
    simp only [stepState, userPersonaAnalysisAgent, hf, applyUpdate]
    show validRecord (mergePersonaSlot s.research_output _) = true
    refine validRecord_mergePersonaSlot _ _ h ?_
    cases hl : llmStructured o.llmPersona validPersonaOutput with
    | ok v =>
      simp only [hl]
      exact llmStructured_ok_valid o.llmPersona validPersonaOutput v hl
    | error e =>
      simp only [hl]
      rfl

theorem step_valid_niche (o : Oracles) (s : BusinessIdeaGenerationState)
    (h : validRecordOpt s.research_output = true) :
    validRecordOpt ((stepState o s nicheOpportunityScannerAgent).research_output) = true := by
  cases hf : o.nicheFatal with
  | some m =>
    simp only [stepState, nicheOpportunityScannerAgent, hf, failUpdate, applyUpdate]
    exact h
  | none =>
    cases hr : s.research_output with
    | none =>
      simp only [stepState, nicheOpportunityScannerAgent, hf, hr, failUpdate,
        applyUpdate]
      simpa [hr] using h
    | some ro =>
      cases hl : llmStructured o.llmNiche validNicheOutput with
      | error m =>
        simp only [stepState, nicheOpportunityScannerAgent, hf, hr, hl,
          failUpdate, applyUpdate]
        simpa [hr] using h
      | ok out =>
        cases hs : o.nicheSave with
        | error m =>
          simp only [stepState, nicheOpportunityScannerAgent, hf, hr, hl, hs,
            failUpdate, applyUpdate]
          simpa [hr] using h
        | ok u =>
          simp only [stepState, nicheOpportunityScannerAgent, hf, hr, hl, hs,
            applyUpdate]
          show validRecord (mergeNicheSlot (some ro) out) = true
          refine validRecord_mergeNicheSlot _ _ (by simpa [hr] using h) ?_
          exact llmStructured_ok_valid _ _ _ hl

theorem step_valid_business (o : Oracles) (s : BusinessIdeaGenerationState)
    (h : validRecordOpt s.research_output = true) :
    validRecordOpt ((stepState o s businessModelGeneratorAgent).research_output) = true := by
  cases hf : o.businessFatal with
  | some m =>
    simp only [stepState, businessModelGeneratorAgent, hf, businessFallbackUpdate,
      applyUpdate]
    exact h
  | none =>
    cases hr : s.research_output with
    | none =>
      simp only [stepState, businessModelGeneratorAgent, hf, hr,
        businessFallbackUpdate, applyUpdate]
      simpa [hr] using h
    | some ro =>
      cases hl : llmStructured o.llmBusiness validBusinessOutput with
      | error m =>
        simp only [stepState, businessModelGeneratorAgent, hf, hr, hl,
          businessFallbackUpdate, applyUpdate]
        simpa [hr] using h
      | ok out =>
        simp only [stepState, businessModelGeneratorAgent, hf, hr, hl, applyUpdate]
        show validRecord (mergeBusinessSlot (some ro) out) = true
        refine validRecord_mergeBusinessSlot _ _ (by simpa [hr] using h) ?_
        exact llmStructured_ok_valid _ _ _ hl

theorem step_valid_validation (o : Oracles) (s : BusinessIdeaGenerationState)
    (h : validRecordOpt s.research_output = true) :
    validRecordOpt ((stepState o s businessModelValidationAgent).research_output) = true := by
  cases hv : o.llmValidationOk with
  | true =>
    simp only [stepState, businessModelValidationAgent, hv, if_true, applyUpdate]
    exact h
  | false =>
    simp only [stepState, businessModelValidationAgent, hv, if_false,
      Bool.false_eq_true, applyUpdate]
    exact h

/-- C9: every structured value stored in a research-record slot — whether a
validated inference result or a fallback-constructed value — satisfies the
pydantic score bounds (confidence, relevance, frequency, urgency, automation
potential, trend and feasibility scores all within 0..10, frequency and
urgency within 1..10): running the whole pipeline from a state whose record
is bound-valid (in particular the initial absent record) yields a record
whose populated slots are all bound-valid. -/
theorem slot_scores_bounded (o : Oracles) (s : BusinessIdeaGenerationState)
    (h : validRecordOpt s.research_output = true) :
    validRecordOpt ((runPipeline o s).research_output) = true := by
  have h1 := step_valid_market o s h
  have h2 := step_valid_pain o _ h1
  have h3 := step_valid_persona o _ h2
  have h4 := step_valid_niche o _ h3
  have h5 := step_valid_business o _ h4
  have h6 := step_valid_validation o _ h5
  exact h6

theorem slot_scores_bounded_witness :
    validRecordOpt ((runPipeline oAllFail sEcom).research_output) = true :=
  slot_scores_bounded oAllFail sEcom rfl

end IdeaGenerator
